import Mathlib

/-!
Shallow embedding of rofi-xrandr.py: the display-topology resolution engine,
the session-marker (pidfile) coordination around the rofi picker, and the
interpretation of the picker's exit status.

Modelling conventions:
* Python enums become inductive types; enum values become `value` functions.
* Functions whose only effects are subprocess calls are modelled as pure
  functions returning the batch of xrandr operations they would issue.
* The interactive picker choice (rofi output) is passed in as an explicit
  `Option String` parameter (`none` = cancelled).
* Python exceptions become `Except AppError`; each constructor of `AppError`
  mirrors one raise site together with the data its message interpolates.
* Filesystem/process state around the pidfile is a `World` record; the
  observable actions of the session coordinator are an `Event` trace.
-/

namespace RofiXrandr

/-- DP_PREFIX = "DP" in the source. -/
def DP_PREF : String := "DP"

/-- PRESENT_MODE = "1920x1080" in the source. -/
def PRESENT_MODE : String := "1920x1080"

/-- class Relation(Enum). -/
inductive Relation where
  | LEFT_OF
  | ABOVE
  | RIGHT_OF
  | SAME_AS
deriving DecidableEq, Repr

/-- The string value of each Relation member. -/
def Relation.value : Relation → String
  | .LEFT_OF => "--left-of"
  | .ABOVE => "--above"
  | .RIGHT_OF => "--right-of"
  | .SAME_AS => "--same-as"

/-- class XrandrArg(Enum). -/
inductive XrandrArg where
  | AUTO
  | MODE
  | OFF
  | ROTATE
deriving DecidableEq, Repr

/-- The string value of each XrandrArg member. -/
def XrandrArg.value : XrandrArg → String
  | .AUTO => "--auto"
  | .MODE => "--mode"
  | .OFF => "--off"
  | .ROTATE => "--rotate"

/-- class KnownScreen(Enum): the closed table of well-known output roles. -/
inductive KnownScreen where
  | INTERNAL
  | HDMI
  | DP1
  | DP2
  | DP3
  | DP4
  | DP_DOCK_1
  | DP_DOCK_2
  | DP_DOCK_3
deriving DecidableEq, Repr

/-- The identity string (enum value) of each KnownScreen member. -/
def KnownScreen.value : KnownScreen → String
  | .INTERNAL => "eDP-1"
  | .HDMI => "HDMI-1"
  | .DP1 => "DP-1"
  | .DP2 => "DP-2"
  | .DP3 => "DP-3"
  | .DP4 => "DP-4"
  | .DP_DOCK_1 => "DP-1-1"
  | .DP_DOCK_2 => "DP-1-2"
  | .DP_DOCK_3 => "DP-1-3"

/-- Python KnownScreen(name): value lookup; ValueError is modelled as none. -/
def KnownScreen.ofValue : String → Option KnownScreen
  | "eDP-1" => some .INTERNAL
  | "HDMI-1" => some .HDMI
  | "DP-1" => some .DP1
  | "DP-2" => some .DP2
  | "DP-3" => some .DP3
  | "DP-4" => some .DP4
  | "DP-1-1" => some .DP_DOCK_1
  | "DP-1-2" => some .DP_DOCK_2
  | "DP-1-3" => some .DP_DOCK_3
  | _ => none

/-- Python KnownScreen[name]: member-name lookup; a missing name raises
KeyError in Python, modelled as none here. -/
def KnownScreen.ofMemberName : String → Option KnownScreen
  | "INTERNAL" => some .INTERNAL
  | "HDMI" => some .HDMI
  | "DP1" => some .DP1
  | "DP2" => some .DP2
  | "DP3" => some .DP3
  | "DP4" => some .DP4
  | "DP_DOCK_1" => some .DP_DOCK_1
  | "DP_DOCK_2" => some .DP_DOCK_2
  | "DP_DOCK_3" => some .DP_DOCK_3
  | _ => none

/-- dataclass ScreenInfo. -/
structure ScreenInfo where
  name : String
  known_screen : Option KnownScreen
  connected : Bool
  model_name : Option String
deriving DecidableEq, Repr

/-- Python str.startswith, phrased on the underlying character lists so that
it evaluates by kernel reduction. -/
def strStartsWith (s pre : String) : Bool :=
  pre.data.isPrefixOf s.data

/-- Python str.upper for the ASCII identities this program handles, phrased
on the underlying character list so that it evaluates by kernel reduction. -/
def strUpper (s : String) : String :=
  String.mk (s.data.map Char.toUpper)

/-- ScreenInfo.is_dp: self.name.startswith(DP_PREFIX). -/
def ScreenInfo.is_dp (self : ScreenInfo) : Bool :=
  strStartsWith self.name DP_PREF

/-- One parsed xrandr device block, as far as ScreenInfo.from_xrandr_json
consumes it: device_name, is_connected, and the optional EdidModel name. -/
structure Device where
  device_name : String
  is_connected : Bool
  edid_model : Option String
deriving DecidableEq, Repr

/-- ScreenInfo.from_xrandr_json. -/
def ScreenInfo.from_xrandr_json (device : Device) : ScreenInfo :=
  { name := device.device_name
    known_screen := KnownScreen.ofValue device.device_name
    connected := device.is_connected
    model_name := device.edid_model }

/-- A connected screen as the inventory would yield it for a device with the
given name and no EDID model property. -/
def screenNamed (name : String) : ScreenInfo :=
  ScreenInfo.from_xrandr_json { device_name := name, is_connected := true, edid_model := none }

/-- XrandrArgType = str | KnownScreen | Relation | XrandrArg.  The Python
annotation omits ScreenInfo, but configure_present_screen in fact puts bare
ScreenInfo objects into command tuples, so the embedding carries a
constructor for them. -/
inductive XrandrArgType where
  | str (s : String)
  | ks (k : KnownScreen)
  | rel (r : Relation)
  | xa (a : XrandrArg)
  | screen (s : ScreenInfo)
deriving DecidableEq, Repr

/-- One command tuple (output, *options) handed to xrandr_command. -/
def Command : Type := List XrandrArgType

instance : DecidableEq Command := by
  unfold Command
  infer_instance

/-- dataclass ScreenConfig. -/
structure ScreenConfig where
  relation : Relation
  args : List XrandrArgType
deriving DecidableEq, Repr

/-- CONFIGS: the named-preset dictionary, in insertion order. -/
def CONFIGS : List (String × ScreenConfig) :=
  [("left", ⟨Relation.LEFT_OF, [XrandrArgType.xa XrandrArg.AUTO]⟩),
   ("above", ⟨Relation.ABOVE, [XrandrArgType.xa XrandrArg.AUTO]⟩),
   ("left fullhd", ⟨Relation.LEFT_OF, [XrandrArgType.xa XrandrArg.MODE, XrandrArgType.str "1920x1080"]⟩),
   ("right", ⟨Relation.RIGHT_OF, [XrandrArgType.xa XrandrArg.AUTO]⟩),
   ("same", ⟨Relation.SAME_AS, [XrandrArgType.xa XrandrArg.AUTO]⟩)]

/-- Python dict subscript d[key] for the preset table: some value on a hit,
none where Python would raise KeyError. -/
def dictGet (d : List (String × ScreenConfig)) (key : String) : Option ScreenConfig :=
  match d with
  | [] => none
  | (k, v) :: rest => if k = key then some v else dictGet rest key

/-- Equality of Except values is decidable when both component types have
decidable equality. -/
instance {ε α : Type} [DecidableEq ε] [DecidableEq α] : DecidableEq (Except ε α) :=
  fun a b =>
    match a, b with
    | Except.error e, Except.error f =>
      if h : e = f then Decidable.isTrue (by rw [h]) else Decidable.isFalse (by simp [h])
    | Except.ok x, Except.ok y =>
      if h : x = y then Decidable.isTrue (by rw [h]) else Decidable.isFalse (by simp [h])
    | Except.error _, Except.ok _ => Decidable.isFalse (by simp)
    | Except.ok _, Except.error _ => Decidable.isFalse (by simp)

/-- Each exception the modelled code can raise, one constructor per raise
site, carrying exactly the data its message interpolates:
* noDPOutputs: Error "No DisplayPort outputs found" (no screen list).
* tooManyScreens: Error "Too many screens found: ..." with str(screen) for
  every connected screen.
* pickerError: Error "Error selecting option: rofi returned {rc}\n{stderr}".
* keyError: an uncaught Python KeyError (dict / enum-name subscript miss). -/
inductive AppError where
  | noDPOutputs
  | tooManyScreens (connected : List String)
  | pickerError (returncode : Int) (stderr : String)
  | keyError (key : String)
deriving DecidableEq, Repr

/-- has_screen: any(screen == screen_info.known_screen for ...). -/
def has_screen (connected_screens : List ScreenInfo) (screen : KnownScreen) : Bool :=
  connected_screens.any (fun screen_info => screen_info.known_screen = some screen)

/-- only_internal_screen. -/
def only_internal_screen (connected_screens : List ScreenInfo) : Bool :=
  connected_screens.length = 1 && has_screen connected_screens KnownScreen.INTERNAL

/-- The projector / mirror-target disambiguation in configure_present_screen
(lines 262-271), with the exact branch structure of the source:
if not dp_outputs: raise; elif len == 1 and has_hdmi: HDMI projector;
elif len == 2 and not has_hdmi: positional unpacking proj, mirror = dp_outputs;
else: raise with the connected-screen list. -/
def present_assign (dp_outputs : List ScreenInfo) (has_hdmi : Bool)
    (connected_screens : List ScreenInfo) : Except AppError (XrandrArgType × ScreenInfo) :=
  match dp_outputs, has_hdmi with
  | [], _ => Except.error AppError.noDPOutputs
  | [d], true => Except.ok (XrandrArgType.ks KnownScreen.HDMI, d)
  | [a, b], false => Except.ok (XrandrArgType.screen a, b)
  | _, _ => Except.error (AppError.tooManyScreens (connected_screens.map ScreenInfo.name))

/-- configure_internal_screen: returns (changed, batch).  The batch disables
every connected screen whose role is not the internal panel; the function
always reports True (changed). -/
def configure_internal_screen (connected_screens : List ScreenInfo) : Bool × List Command :=
  (true,
   connected_screens.filterMap (fun screen =>
     if screen.known_screen = some KnownScreen.INTERNAL then none
     else some [XrandrArgType.str screen.name, XrandrArgType.xa XrandrArg.OFF]))

/-- configure_home_screen: the fixed three-operation docked batch. -/
def configure_home_screen (present : Bool) : Bool × List Command :=
  let dp2_args : List XrandrArgType :=
    if present then [XrandrArgType.xa XrandrArg.MODE, XrandrArgType.str PRESENT_MODE]
    else [XrandrArgType.xa XrandrArg.AUTO]
  (true,
   [[XrandrArgType.ks KnownScreen.DP2, XrandrArgType.rel Relation.LEFT_OF,
     XrandrArgType.ks KnownScreen.INTERNAL] ++ dp2_args,
    [XrandrArgType.ks KnownScreen.DP_DOCK_2, XrandrArgType.rel Relation.LEFT_OF,
     XrandrArgType.ks KnownScreen.DP2, XrandrArgType.xa XrandrArg.AUTO,
     XrandrArgType.xa XrandrArg.ROTATE, XrandrArgType.str "right"],
    [XrandrArgType.ks KnownScreen.INTERNAL, XrandrArgType.xa XrandrArg.AUTO]])

/-- configure_present_screen, with the picker's answer passed in as `config`
(none = cancelled).  Mirrors the source order: cancellation check first, then
shape disambiguation, then CONFIGS[config] (a miss is a Python KeyError),
then the two-operation batch.  Note the mirror output is placed with
XrandrArg.AUTO regardless of the preset's args. -/
def configure_present_screen (config : Option String)
    (connected_screens : List ScreenInfo) : Except AppError (Bool × List Command) :=
  match config with
  | none => Except.ok (false, [])
  | some cfg =>
    match present_assign (connected_screens.filter ScreenInfo.is_dp)
        (has_screen connected_screens KnownScreen.HDMI) connected_screens with
    | Except.error e => Except.error e
    | Except.ok (proj_output, mirror_output) =>
      match dictGet CONFIGS cfg with
      | none => Except.error (AppError.keyError cfg)
      | some config_settings =>
        Except.ok (true,
          [[XrandrArgType.screen mirror_output, XrandrArgType.rel config_settings.relation,
            XrandrArgType.ks KnownScreen.INTERNAL, XrandrArgType.xa XrandrArg.AUTO],
           [proj_output, XrandrArgType.rel Relation.SAME_AS,
            XrandrArgType.screen mirror_output, XrandrArgType.xa XrandrArg.AUTO]])

/-- configure_other_screen, with the picker's answer passed in as `config`.
Faithful to the source's exception behaviour: KnownScreen[selection.upper()]
raises KeyError on a miss, and the surrounding handler catches only
ValueError, so an unmatched selection propagates the KeyError instead of
falling back to the literal string (the `screen = selection` branch is dead
code). -/
def configure_other_screen (config : Option String)
    (selection : String) : Except AppError (Bool × List Command) :=
  match config with
  | none => Except.ok (false, [])
  | some cfg =>
    match KnownScreen.ofMemberName (strUpper selection) with
    | none => Except.error (AppError.keyError (strUpper selection))
    | some screen =>
      match dictGet CONFIGS cfg with
      | none => Except.error (AppError.keyError cfg)
      | some config_settings =>
        Except.ok (true,
          [[XrandrArgType.ks screen, XrandrArgType.rel config_settings.relation,
            XrandrArgType.ks KnownScreen.INTERNAL] ++ config_settings.args])

/-- apply_screen_configuration: dispatches on the selection and, when the
chosen configure function reports changed, runs the post-apply side effects
(update_hlwm, restore_wallpaper, set_presentation_mode).  Result is
(changed, batch, side_effects_ran). -/
def apply_screen_configuration (selection : String) (config : Option String)
    (connected_screens : List ScreenInfo) : Except AppError (Bool × List Command × Bool) :=
  let r : Except AppError (Bool × List Command) :=
    if selection = "internal" then Except.ok (configure_internal_screen connected_screens)
    else if selection = "home" then Except.ok (configure_home_screen false)
    else if selection = "home-present" then Except.ok (configure_home_screen true)
    else if selection = "present" then configure_present_screen config connected_screens
    else configure_other_screen config selection
  match r with
  | Except.error e => Except.error e
  | Except.ok (changed, commands) => Except.ok (changed, commands, changed)

/-- Interpretation of the picker's exit status in select_option (lines
190-194): returncode in [1, -signal.SIGTERM] is cancellation (none), any
other non-zero returncode raises, otherwise the trimmed stdout is the
selection.  SIGTERM is 15, so -signal.SIGTERM is -15. -/
def interpret_rofi_result (stdout stderr : String) (returncode : Int) :
    Except AppError (Option String) :=
  if returncode = 1 ∨ returncode = -15 then Except.ok none
  else if returncode ≠ 0 then Except.error (AppError.pickerError returncode stderr)
  else Except.ok (some stdout.trim)

/-- The pidfile / process-table state the session coordinator manipulates:
`marker` is the content of the pidfile (none = no file), `procCmd pid` is the
first cmdline entry of a live process with that pid (none = no such
process). -/
structure World where
  marker : Option Nat
  procCmd : Nat → Option String

/-- Observable actions of the session coordinator. -/
inductive Event where
  | sigterm (pid : Nat)
  | unlinkMarker
  | spawn (pid : Nat)
  | writeMarker (pid : Nat)
deriving DecidableEq, Repr

/-- maybe_kill_rofi: read the pidfile (missing file: return); look the pid up
in the process table (NoSuchProcess: unlink and return without signalling);
if the process's command is "rofi", SIGTERM it; unlink the pidfile. -/
def maybe_kill_rofi (w : World) : World × List Event :=
  match w.marker with
  | none => (w, [])
  | some pid =>
    match w.procCmd pid with
    | none => ({ w with marker := none }, [Event.unlinkMarker])
    | some cmd =>
      if cmd = "rofi" then
        ({ w with marker := none }, [Event.sigterm pid, Event.unlinkMarker])
      else
        ({ w with marker := none }, [Event.unlinkMarker])

/-- The launch prefix of select_option: maybe_kill_rofi, then Popen of the
new rofi process, then write_rofi_pidfile records its pid as the new
marker. -/
def select_option_launch (w : World) (npid : Nat) : World × List Event :=
  let p := maybe_kill_rofi w
  ({ p.1 with marker := some npid }, p.2 ++ [Event.spawn npid, Event.writeMarker npid])

/-- Outcome of the body of a `with` block: it either returns a value or
raises an exception. -/
inductive BodyOutcome (A : Type) where
  | ret (a : A)
  | exc
deriving DecidableEq, Repr

/-- write_rofi_pidfile, a @contextlib.contextmanager whose generator is
`path.write_text(str(pid)); yield; path.unlink(missing_ok=True)` with no
try/finally.  Entering writes the marker; if the body returns, the code
after the yield unlinks it; if the body raises, the exception is thrown into
the generator at the yield point and propagates, so the unlink after the
yield never runs and the marker file survives.  Result: (final world,
body result or none if the exception propagated). -/
def write_rofi_pidfile {A : Type} (pid : Nat) (body : BodyOutcome A) (w : World) :
    World × Option A :=
  let w1 : World := { w with marker := some pid }
  match body with
  | BodyOutcome.ret a => ({ w1 with marker := none }, some a)
  | BodyOutcome.exc => (w1, none)

/-- Hyphen count of an identity string, the spec's docked-vs-plain
DisplayPort criterion (2 hyphens = docked, 1 hyphen = plain). -/
def hyphens (s : String) : Nat :=
  (s.toList.filter (fun c => c = '-')).length

end RofiXrandr

namespace RofiXrandr

/-- On an error from the shape disambiguation, configure_present_screen
propagates that error as its result. -/
theorem configure_present_error (cfg : String) (screens : List ScreenInfo) (e : AppError)
    (h : present_assign (screens.filter ScreenInfo.is_dp)
          (has_screen screens KnownScreen.HDMI) screens = Except.error e) :
    configure_present_screen (some cfg) screens = Except.error e := by
  simp [configure_present_screen, h]

/-- C1: in the ad-hoc single-external scenario, a selection that matches no
built-in scenario and no known role does NOT fall back to the literal
string: KnownScreen[selection.upper()] raises KeyError, which the
except-ValueError handler does not catch, so resolution fails.  Evaluated
here at selection "VGA-1" with preset "left": the call propagates the
KeyError instead of producing a one-operation batch on output "VGA-1". -/
theorem c1_unmatched_selection_keyerror :
    configure_other_screen (some "left") "VGA-1" =
      Except.error (AppError.keyError "VGA-1") := by decide

/-- C2: the session marker written by write_rofi_pidfile is NOT removed on
the exception exit path.  The contextmanager generator has no try/finally
around its yield, so when the picker wait raises, the unlink after the
yield is skipped: starting from a world with no marker, running the context
with an exception-raising body leaves the marker (pid 42) in place. -/
theorem c2_marker_survives_exception :
    ((write_rofi_pidfile 42 (BodyOutcome.exc : BodyOutcome Unit)
        { marker := none, procCmd := fun _ => none }).1).marker = some 42 := rfl

/-- C3 counterexample: with inventory [eDP-1, DP-1, DP-1-1] (plain
DisplayPort listed before docked), the Presentation scenario makes the plain
1-hyphen output DP-1 the projector (subject of the same-as operation) and
the docked 2-hyphen output DP-1-1 the mirror-target — the opposite of the
claimed docked-as-projector / plain-as-mirror-target assignment. -/
theorem c3_counterexample :
    configure_present_screen (some "left")
        [screenNamed "eDP-1", screenNamed "DP-1", screenNamed "DP-1-1"] =
      Except.ok (true,
        [[XrandrArgType.screen (screenNamed "DP-1-1"), XrandrArgType.rel Relation.LEFT_OF,
          XrandrArgType.ks KnownScreen.INTERNAL, XrandrArgType.xa XrandrArg.AUTO],
         [XrandrArgType.screen (screenNamed "DP-1"), XrandrArgType.rel Relation.SAME_AS,
          XrandrArgType.screen (screenNamed "DP-1-1"), XrandrArgType.xa XrandrArg.AUTO]])
    ∧ hyphens "DP-1" = 1 ∧ hyphens "DP-1-1" = 2 := by
  exact ⟨by decide, by decide, by decide⟩

/-- C3 amended: with exactly two DisplayPort outputs and no HDMI, the
assignment is positional, not hyphen-based: the first DisplayPort output in
inventory order becomes the projector and the second the mirror-target
(proj, mirror = dp_outputs).  It is deterministic and reproducible because
the resolution is a pure function of the inventory and preset. -/
theorem c3_two_dp_positional (screens : List ScreenInfo) (a b : ScreenInfo)
    (cfg : String) (cs : ScreenConfig)
    (hdp : screens.filter ScreenInfo.is_dp = [a, b])
    (hh : has_screen screens KnownScreen.HDMI = false)
    (hc : dictGet CONFIGS cfg = some cs) :
    configure_present_screen (some cfg) screens =
      Except.ok (true,
        [[XrandrArgType.screen b, XrandrArgType.rel cs.relation,
          XrandrArgType.ks KnownScreen.INTERNAL, XrandrArgType.xa XrandrArg.AUTO],
         [XrandrArgType.screen a, XrandrArgType.rel Relation.SAME_AS,
          XrandrArgType.screen b, XrandrArgType.xa XrandrArg.AUTO]]) := by
  simp [configure_present_screen, hdp, hh, hc, present_assign]

/-- Witness for C3 amended at a concrete inventory and preset. -/
theorem c3_two_dp_positional_witness :
    configure_present_screen (some "above")
        [screenNamed "DP-2", screenNamed "eDP-1", screenNamed "DP-1-2"] =
      Except.ok (true,
        [[XrandrArgType.screen (screenNamed "DP-1-2"), XrandrArgType.rel Relation.ABOVE,
          XrandrArgType.ks KnownScreen.INTERNAL, XrandrArgType.xa XrandrArg.AUTO],
         [XrandrArgType.screen (screenNamed "DP-2"), XrandrArgType.rel Relation.SAME_AS,
          XrandrArgType.screen (screenNamed "DP-1-2"), XrandrArgType.xa XrandrArg.AUTO]]) :=
  c3_two_dp_positional _ _ _ _ ⟨Relation.ABOVE, [XrandrArgType.xa XrandrArg.AUTO]⟩
    (by decide) (by decide) (by decide)

/-- C4 counterexample: the preset "left fullhd" carries the explicit mode
directive [MODE, "1920x1080"], but with the valid inventory
[eDP-1, HDMI-1, DP-2] the Presentation batch places the mirror-target with
AUTO, not with the preset's mode directive: the preset's args are ignored. -/
theorem c4_counterexample :
    dictGet CONFIGS "left fullhd" =
      some ⟨Relation.LEFT_OF, [XrandrArgType.xa XrandrArg.MODE, XrandrArgType.str "1920x1080"]⟩
    ∧ configure_present_screen (some "left fullhd")
        [screenNamed "eDP-1", screenNamed "HDMI-1", screenNamed "DP-2"] =
      Except.ok (true,
        [[XrandrArgType.screen (screenNamed "DP-2"), XrandrArgType.rel Relation.LEFT_OF,
          XrandrArgType.ks KnownScreen.INTERNAL, XrandrArgType.xa XrandrArg.AUTO],
         [XrandrArgType.ks KnownScreen.HDMI, XrandrArgType.rel Relation.SAME_AS,
          XrandrArgType.screen (screenNamed "DP-2"), XrandrArgType.xa XrandrArg.AUTO]]) :=
  ⟨by decide, by decide⟩

/-- C4 amended: for every valid inventory shape and chosen preset, the batch
has exactly two operations: the mirror-target placed relative to the
internal panel with the preset's relation in AUTOMATIC mode (the preset's
own mode directive is not applied in the Presentation scenario), then the
projector placed same-as the mirror-target in automatic mode. -/
theorem c4_present_batch_shape (screens : List ScreenInfo)
    (cfg : String) (cs : ScreenConfig) (proj : XrandrArgType) (mirror : ScreenInfo)
    (ha : present_assign (screens.filter ScreenInfo.is_dp)
            (has_screen screens KnownScreen.HDMI) screens = Except.ok (proj, mirror))
    (hc : dictGet CONFIGS cfg = some cs) :
    configure_present_screen (some cfg) screens =
      Except.ok (true,
        [[XrandrArgType.screen mirror, XrandrArgType.rel cs.relation,
          XrandrArgType.ks KnownScreen.INTERNAL, XrandrArgType.xa XrandrArg.AUTO],
         [proj, XrandrArgType.rel Relation.SAME_AS,
          XrandrArgType.screen mirror, XrandrArgType.xa XrandrArg.AUTO]]) := by
  simp [configure_present_screen, ha, hc]

/-- Witness for C4 amended at a concrete inventory and preset. -/
theorem c4_present_batch_shape_witness :
    configure_present_screen (some "same")
        [screenNamed "eDP-1", screenNamed "DP-3", screenNamed "HDMI-1"] =
      Except.ok (true,
        [[XrandrArgType.screen (screenNamed "DP-3"), XrandrArgType.rel Relation.SAME_AS,
          XrandrArgType.ks KnownScreen.INTERNAL, XrandrArgType.xa XrandrArg.AUTO],
         [XrandrArgType.ks KnownScreen.HDMI, XrandrArgType.rel Relation.SAME_AS,
          XrandrArgType.screen (screenNamed "DP-3"), XrandrArgType.xa XrandrArg.AUTO]]) :=
  c4_present_batch_shape _ _ ⟨Relation.SAME_AS, [XrandrArgType.xa XrandrArg.AUTO]⟩
    _ _ (by decide) (by decide)

/-- C5 counterexample: for the zero-DisplayPort inventory [eDP-1] (with a
preset chosen), the raised error is the bare no-DisplayPort error, which
carries no list of connected outputs — refuting the claim that every
unsupported shape fails with an error carrying the connected-output list. -/
theorem c5_counterexample :
    configure_present_screen (some "left") [screenNamed "eDP-1"] =
      Except.error AppError.noDPOutputs := by decide

/-- C5 amended: for every inventory whose shape matches neither supported
rule — zero DisplayPort outputs, one DisplayPort output without HDMI, two
DisplayPort outputs with HDMI, or three or more DisplayPort outputs — the
Presentation scenario (once a preset is chosen) fails with an error and
issues zero configuration operations; the error carries the list of
connected outputs except in the zero-DisplayPort case, where it is the bare
no-DisplayPort error. -/
theorem c5_bad_shape_errors (screens : List ScreenInfo) (cfg : String)
    (hbad : screens.filter ScreenInfo.is_dp = []
      ∨ ((screens.filter ScreenInfo.is_dp).length = 1
          ∧ has_screen screens KnownScreen.HDMI = false)
      ∨ ((screens.filter ScreenInfo.is_dp).length = 2
          ∧ has_screen screens KnownScreen.HDMI = true)
      ∨ 3 ≤ (screens.filter ScreenInfo.is_dp).length) :
    configure_present_screen (some cfg) screens =
      Except.error (if screens.filter ScreenInfo.is_dp = [] then AppError.noDPOutputs
        else AppError.tooManyScreens (screens.map ScreenInfo.name)) := by
  apply configure_present_error
  revert hbad
  generalize has_screen screens KnownScreen.HDMI = hdmi
  generalize screens.filter ScreenInfo.is_dp = dp
  intro hbad
  rcases dp with _ | ⟨a, _ | ⟨b, _ | ⟨c, rest⟩⟩⟩
  · simp [present_assign]
  · cases hdmi
    · simp [present_assign]
    · simp at hbad
  · cases hdmi
    · simp at hbad
    · simp [present_assign]
  · simp [present_assign]

/-- Witness for C5 amended: two DisplayPort outputs together with HDMI fail
with the error carrying the three connected output names. -/
theorem c5_bad_shape_errors_witness :
    configure_present_screen (some "left")
        [screenNamed "DP-1", screenNamed "DP-2", screenNamed "HDMI-1"] =
      Except.error (AppError.tooManyScreens ["DP-1", "DP-2", "HDMI-1"]) :=
  (c5_bad_shape_errors
    [screenNamed "DP-1", screenNamed "DP-2", screenNamed "HDMI-1"] "left"
    (by decide)).trans (by decide)

/-- C6 counterexample: a picker terminated by SIGKILL has returncode -9 —
termination by a signal — yet the code raises the fatal picker error instead
of resolving the prompt to cancellation, refuting "termination by any
signal is cancellation". -/
theorem c6_counterexample :
    interpret_rofi_result "" "" (-9) = Except.error (AppError.pickerError (-9) "") := by
  decide

/-- C6 amended: exit code 1 or termination by SIGTERM (returncode -15)
resolves the prompt to cancellation; every other non-zero returncode —
including termination by any other signal — is a fatal picker error. -/
theorem c6_exit_code_interpretation (stdout stderr : String) (rc : Int) :
    ((rc = 1 ∨ rc = -15) → interpret_rofi_result stdout stderr rc = Except.ok none)
    ∧ (rc ≠ 0 → rc ≠ 1 → rc ≠ -15 →
        interpret_rofi_result stdout stderr rc =
          Except.error (AppError.pickerError rc stderr)) := by
  constructor
  · intro h
    unfold interpret_rofi_result
    rw [if_pos h]
  · intro h0 h1 h15
    unfold interpret_rofi_result
    rw [if_neg (by tauto), if_pos h0]

/-- Witness for C6 amended: exit code 1 cancels; exit code 7 is fatal. -/
theorem c6_exit_code_interpretation_witness :
    interpret_rofi_result "out" "err" 1 = Except.ok none
    ∧ interpret_rofi_result "out" "err" 7 =
        Except.error (AppError.pickerError 7 "err") :=
  ⟨(c6_exit_code_interpretation "out" "err" 1).1 (Or.inl rfl),
   (c6_exit_code_interpretation "out" "err" 7).2 (by decide) (by decide) (by decide)⟩

/-- C7: for every inventory whose DisplayPort outputs are exactly one plain
(1-hyphen) output d and which contains an HDMI output — in any order — the
Presentation scenario assigns projector = HDMI and mirror-target = d: the
batch places d relative to the internal panel and HDMI same-as d. -/
theorem c7_one_dp_plus_hdmi (screens : List ScreenInfo) (d : ScreenInfo)
    (cfg : String) (cs : ScreenConfig)
    (hdp : screens.filter ScreenInfo.is_dp = [d])
    (hplain : hyphens d.name = 1)
    (hh : has_screen screens KnownScreen.HDMI = true)
    (hc : dictGet CONFIGS cfg = some cs) :
    configure_present_screen (some cfg) screens =
      Except.ok (true,
        [[XrandrArgType.screen d, XrandrArgType.rel cs.relation,
          XrandrArgType.ks KnownScreen.INTERNAL, XrandrArgType.xa XrandrArg.AUTO],
         [XrandrArgType.ks KnownScreen.HDMI, XrandrArgType.rel Relation.SAME_AS,
          XrandrArgType.screen d, XrandrArgType.xa XrandrArg.AUTO]]) := by
  simp [configure_present_screen, hdp, hh, hc, present_assign]

/-- Witness for C7 at a concrete inventory (HDMI listed first) and preset. -/
theorem c7_one_dp_plus_hdmi_witness :
    configure_present_screen (some "right")
        [screenNamed "HDMI-1", screenNamed "DP-2", screenNamed "eDP-1"] =
      Except.ok (true,
        [[XrandrArgType.screen (screenNamed "DP-2"), XrandrArgType.rel Relation.RIGHT_OF,
          XrandrArgType.ks KnownScreen.INTERNAL, XrandrArgType.xa XrandrArg.AUTO],
         [XrandrArgType.ks KnownScreen.HDMI, XrandrArgType.rel Relation.SAME_AS,
          XrandrArgType.screen (screenNamed "DP-2"), XrandrArgType.xa XrandrArg.AUTO]]) :=
  c7_one_dp_plus_hdmi _ _ _ ⟨Relation.RIGHT_OF, [XrandrArgType.xa XrandrArg.AUTO]⟩
    (by decide) (by decide) (by decide) (by decide)

/-- C8: when the inventory is exactly the internal panel, the Internal-only
scenario produces an empty batch yet still reports changed = true, so
apply_screen_configuration "internal" still runs the post-apply side
effects (third component true). -/
theorem c8_internal_only_noop (s : ScreenInfo)
    (h : s.known_screen = some KnownScreen.INTERNAL) :
    configure_internal_screen [s] = (true, [])
    ∧ apply_screen_configuration "internal" none [s] = Except.ok (true, [], true) := by
  have hb : configure_internal_screen [s] = (true, []) := by
    simp [configure_internal_screen, h]
  refine ⟨hb, ?_⟩
  simp [apply_screen_configuration, hb]

/-- Witness for C8 with the concrete internal panel eDP-1. -/
theorem c8_internal_only_noop_witness :
    configure_internal_screen [screenNamed "eDP-1"] = (true, [])
    ∧ apply_screen_configuration "internal" none [screenNamed "eDP-1"] =
        Except.ok (true, [], true) :=
  c8_internal_only_noop (screenNamed "eDP-1") (by decide)

/-- C9: when a new interactive session launches while the marker references
a live rofi process, that process receives SIGTERM and the marker is
unlinked, both strictly before the new session's marker is written (and
spawned); when the marker references a dead process, no signal is sent and
the marker is simply discarded before the new write. -/
theorem c9_kill_before_write (w : World) (pid npid : Nat) (h : w.marker = some pid) :
    (w.procCmd pid = some "rofi" →
      select_option_launch w npid =
        ({ marker := some npid, procCmd := w.procCmd },
         [Event.sigterm pid, Event.unlinkMarker, Event.spawn npid, Event.writeMarker npid]))
    ∧ (w.procCmd pid = none →
      select_option_launch w npid =
        ({ marker := some npid, procCmd := w.procCmd },
         [Event.unlinkMarker, Event.spawn npid, Event.writeMarker npid])) := by
  constructor <;> intro hp <;> simp [select_option_launch, maybe_kill_rofi, h, hp]

/-- Witness for C9: a marker referencing live rofi pid 5, new picker pid 9. -/
theorem c9_kill_before_write_witness :
    select_option_launch
        { marker := some 5, procCmd := fun p => if p = 5 then some "rofi" else none } 9 =
      ({ marker := some 9, procCmd := fun p => if p = 5 then some "rofi" else none },
       [Event.sigterm 5, Event.unlinkMarker, Event.spawn 9, Event.writeMarker 9]) :=
  (c9_kill_before_write _ 5 9 rfl).1 (by rfl)

/-- C10: the preset prompt precedes the inventory-shape validation: for
EVERY inventory, a cancelled preset prompt makes the Presentation scenario
resolve to no layout change — ok (not a raised error), an empty batch, and
changed = false so no side-effect calls run. -/
theorem c10_cancel_skips_shape_check (screens : List ScreenInfo) :
    configure_present_screen none screens = Except.ok (false, [])
    ∧ apply_screen_configuration "present" none screens = Except.ok (false, [], false) := by
  exact ⟨rfl, rfl⟩

end RofiXrandr
